import Mathlib

/-!
Verification development for the AgentHub session hub (daemon sources).

The TypeScript sources are shallowly embedded: JavaScript objects parsed from
JSON are modelled by the `Json` inductive (with `undefined` for JavaScript's
`undefinedined`, produced by missing-property access); JavaScript truthiness and
`||` defaulting are modelled by `Json.truthy` and `jsOr`; `Map`s are modelled
by association lists; spawned OS processes are identified by numeric pids
handed in by the caller, and process-level effects (spawn/kill/write) are
returned as explicit effect lists.  `Date` values (timestamps,
`lastActivity`, `createdAt`) carry no logic in the sources and are omitted
from the model.
-/

set_option autoImplicit false

namespace AgentHub

/-- Model of a JavaScript value as obtained from `JSON.parse`, extended with
`undefined` for `undefinedined` (the result of accessing a missing property). -/
inductive Json where
  | undefined
  | null
  | bool (b : Bool)
  | num (n : Int)
  | str (s : String)
  | arr (elems : List Json)
  | obj (fields : List (String × Json))

/-- First binding of a key in an association list (JS objects parsed from JSON
have unique keys, so first = only). -/
def jlookup (k : String) : List (String × Json) → Option Json
  | [] => none
  | (k', v) :: rest => if k' = k then some v else jlookup k rest

/-- JavaScript property access `j[k]`: `undefinedined` when the key is missing or
the value is not an object. (Access on `null`/`undefinedined` throws instead; the
embedding handles those call sites explicitly.) -/
def Json.get (j : Json) (k : String) : Json :=
  match j with
  | .obj fs => (jlookup k fs).getD .undefined
  | _ => .undefined

/-- JavaScript truthiness of a value. -/
def Json.truthy : Json → Bool
  | .undefined => false
  | .null => false
  | .bool b => b
  | .num n => n != 0
  | .str s => s != ""
  | .arr _ => true
  | .obj _ => true

/-- JavaScript `a || b`: `a` when truthy, else `b`. -/
def jsOr (a b : Json) : Json := if a.truthy then a else b

/-! Section: cli-parser.ts -/

/-- The `type` discriminator of a structured CLI event (cli-parser.ts lines 8-10). -/
inductive CLIEventType where
  | init
  | user_message
  | assistant_chunk
  | assistant_complete
  | thinking
  | tool_call
  | tool_result
  | complete
  | error
  | raw
deriving DecidableEq, Repr

/-- The normalized statistics record of a completion event (cli-parser.ts
lines 20-26).  Fields keep the Json values the JavaScript assignment produces. -/
structure CLIStats where
  totalTokens : Json
  inputTokens : Json
  outputTokens : Json
  durationMs : Json
  toolCalls : Json

/-- A structured CLI event (cli-parser.ts lines 8-28).  Optional fields that an
event does not set are `undefined`, as in the JavaScript object; `timestamp`
(a `Date`) is omitted from the model. -/
structure CLIEvent where
  type : CLIEventType
  sessionId : Json := .undefined
  model : Json := .undefined
  role : Json := .undefined
  content : Json := .undefined
  isStreaming : Json := .undefined
  toolName : Json := .undefined
  toolArgs : Json := .undefined
  toolResult : Json := .undefined
  stats : Option CLIStats := none
  raw : Json := .undefined

/-- The statistics normalization of the `result` branch (cli-parser.ts lines
104-110): each field is a `||`-chain ending in `0`. -/
def resultStats (stats : Json) : CLIStats :=
  { totalTokens := jsOr (stats.get "total_tokens") (.num 0)
  , inputTokens := jsOr (stats.get "input_tokens") (jsOr (stats.get "input") (.num 0))
  , outputTokens := jsOr (stats.get "output_tokens") (jsOr (stats.get "output") (.num 0))
  , durationMs := jsOr (stats.get "duration_ms") (.num 0)
  , toolCalls := jsOr (stats.get "tool_calls") (.num 0) }

/-- The `switch (json.type)` dispatch of `parseCLILine` (cli-parser.ts lines
55-133), for a successfully parsed non-null JSON value. -/
def parseCLIDispatch (json : Json) : Option CLIEvent :=
  match json.get "type" with
  | .str t =>
    if t = "init" then
      some { type := .init, sessionId := json.get "session_id", model := json.get "model" }
    else if t = "message" then
      match json.get "role" with
      | .str "user" =>
        some { type := .user_message, role := .str "user", content := json.get "content" }
      | .str "assistant" =>
        some { type := if (json.get "delta").truthy then .assistant_chunk else .assistant_complete
             , role := .str "assistant"
             , content := json.get "content"
             , isStreaming := jsOr (json.get "delta") (.bool false) }
      | _ => none
    else if t = "tool_call" then
      some { type := .tool_call
           , toolName := jsOr (json.get "tool") (json.get "name")
           , toolArgs := jsOr (json.get "args") (json.get "arguments") }
    else if t = "tool_result" then
      some { type := .tool_result
           , toolName := jsOr (json.get "tool") (json.get "name")
           , toolResult := json.get "result" }
    else if t = "result" then
      some { type := .complete
           , stats := if (json.get "stats").truthy then some (resultStats (json.get "stats")) else none }
    else if t = "error" then
      some { type := .error
           , content := jsOr (json.get "message") (jsOr (json.get "error") (.str "Unknown error")) }
    else
      some { type := .raw, raw := json }
  | _ => some { type := .raw, raw := json }

/-- Behavior of `parseCLILine` after `JSON.parse` succeeded on a line that starts with `{`
(cli-parser.ts lines 51-133).  A parsed `null` raises a `TypeError` on the
first property access, which the surrounding `try` converts to `null`
(`none`).  The `raw` field carries the parsed value standing in for the
original line text. -/
def parseCLIJson (json : Json) : Option CLIEvent :=
  match json with
  | .null => none
  | j => parseCLIDispatch j

/-- The streaming-chunk accumulator (cli-parser.ts lines 139-166). -/
structure MessageAccumulator where
  currentMessage : String := ""
  isStreaming : Bool := false
deriving DecidableEq, Repr

def MessageAccumulator.reset (_ : MessageAccumulator) : MessageAccumulator :=
  { currentMessage := "", isStreaming := false }

/-- Embeds `addChunk` appends to the running message and returns it (lines 148-152). -/
def MessageAccumulator.addChunk (a : MessageAccumulator) (content : String) :
    String × MessageAccumulator :=
  let m := a.currentMessage ++ content
  (m, { currentMessage := m, isStreaming := true })

/-- Embeds `complete` clears the streaming flag and returns the current message
(lines 154-157); it does not touch `currentMessage`. -/
def MessageAccumulator.complete (a : MessageAccumulator) :
    String × MessageAccumulator :=
  (a.currentMessage, { a with isStreaming := false })

def MessageAccumulator.getCurrentMessage (a : MessageAccumulator) : String :=
  a.currentMessage

/-- Feed a list of chunk contents through `addChunk` in order, collecting the
returned strings. -/
def runChunks (a : MessageAccumulator) : List String → MessageAccumulator × List String
  | [] => (a, [])
  | c :: cs =>
    let r := a.addChunk c
    let rest := runChunks r.2 cs
    (rest.1, r.1 :: rest.2)

/-- Spec-side description: the cumulative concatenations of a chunk list on
top of an already-accumulated string `acc`. -/
def specCumulative (acc : String) : List String → List String
  | [] => []
  | c :: cs => (acc ++ c) :: specCumulative (acc ++ c) cs

/-- Spec-side description: the concatenation of all chunks. -/
def concatAll : List String → String
  | [] => ""
  | c :: cs => c ++ concatAll cs

/-! Section: terminal-parser.ts -/

/-- JavaScript whitespace (the `\s` class and the set removed by
`String.prototype.trim`). -/
def isJsWs (c : Char) : Bool :=
  c = ' ' || c = '\t' || c = '\n' || c = '\r' ||
  c = '\x0b' || c = '\x0c' || c = '\u00A0' || c = '\u1680' ||
  ('\u2000' ≤ c && c ≤ '\u200A') || c = '\u2028' || c = '\u2029' ||
  c = '\u202F' || c = '\u205F' || c = '\u3000' || c = '\uFEFF'

/-- A character matched by the regex class `[0-9;]` of `ANSI_REGEX`. -/
def isAnsiParam (c : Char) : Bool :=
  ('0' ≤ c && c ≤ '9') || c = ';'

/-- A character matched by the regex class `[a-zA-Z]` of `ANSI_REGEX`. -/
def isAnsiLetter (c : Char) : Bool :=
  ('a' ≤ c && c ≤ 'z') || ('A' ≤ c && c ≤ 'Z')

/-- After `ESC [`, consume `[0-9;]*` then one `[a-zA-Z]`; `some rest` is the
input after a full match of `ANSI_REGEX`, `none` if the regex fails here. -/
def ansiTail : List Char → Option (List Char)
  | [] => none
  | c :: cs =>
    if isAnsiLetter c then some cs
    else if isAnsiParam c then ansiTail cs
    else none

/-- Try to match the part of `ANSI_REGEX` after the initial `ESC`. -/
def ansiBracketTail (cs : List Char) : Option (List Char) :=
  match cs with
  | '[' :: cs' => ansiTail cs'
  | _ => none

theorem ansiTail_length : ∀ {cs rest : List Char}, ansiTail cs = some rest →
    rest.length < cs.length := by
  intro cs
  induction cs with
  | nil => intro rest h; simp [ansiTail] at h
  | cons c cs ih =>
    intro rest h
    simp only [ansiTail] at h
    split at h
    · cases h; simp
    · split at h
      · have := ih h; simp; omega
      · cases h

theorem ansiBracketTail_length {cs rest : List Char}
    (h : ansiBracketTail cs = some rest) : rest.length < cs.length := by
  unfold ansiBracketTail at h
  split at h
  · have := ansiTail_length h; simp_all; omega
  · cases h

/-- Global scan of `text.replace(ANSI_REGEX, '')`: at each position, a full
match of the regex is removed, otherwise the character is kept and scanning
restarts at the next position.  `fuel` bounds the recursion; every step
consumes at least one character, so the zero-fuel branch is unreachable for
the initial fuel `cs.length` used by `stripAnsi`. -/
def stripAnsiFuel : Nat → List Char → List Char
  | _, [] => []
  | 0, l => l
  | fuel + 1, c :: cs =>
    if c = '\x1b' then
      match ansiBracketTail cs with
      | some rest => stripAnsiFuel fuel rest
      | none => c :: stripAnsiFuel fuel cs
    else c :: stripAnsiFuel fuel cs

/-- Embeds `stripAnsi` (terminal-parser.ts lines 14-16): remove all matches of
`/\x1b\[[0-9;]*[a-zA-Z]/g`. -/
def stripAnsiL (cs : List Char) : List Char :=
  stripAnsiFuel cs.length cs

def stripAnsi (text : String) : String :=
  ⟨stripAnsiL text.toList⟩

/-- Model of `String.prototype.trim` on the character list: JavaScript whitespace
removed from both ends. -/
def jsTrimR (cs : List Char) : List Char :=
  (cs.reverse.dropWhile isJsWs).reverse

def jsTrimL (cs : List Char) : List Char :=
  cs.dropWhile isJsWs

def jsTrim (cs : List Char) : List Char :=
  jsTrimR (jsTrimL cs)

/-- The test `clean.match(/^[>❯]\s*$/) !== null`: one prompt glyph followed by
only whitespace. -/
def promptGlyphWsTest : List Char → Bool
  | [] => false
  | c :: rest => (c = '>' || c = '❯') && rest.all isJsWs

/-- Embeds `isPromptLine` (terminal-parser.ts lines 21-25): strip ANSI sequences,
trim, then test the four prompt conditions of line 24. -/
def isPromptLine (line : String) : Bool :=
  let clean := jsTrim (stripAnsiL line.toList)
  clean == ['>'] || clean == ['❯'] || ['>', ' '].isSuffixOf clean ||
    promptGlyphWsTest clean

/-- Spec-side predicate, following claim C4's words: after stripping escape
sequences, the line is exactly a prompt glyph, or it ends with a prompt glyph
followed by (nonempty) trailing whitespace. -/
def specPromptDetected (line : String) : Bool :=
  let c := stripAnsiL line.toList
  c == ['>'] || c == ['❯'] ||
    (!(jsTrimR c == c) && (['>'].isSuffixOf (jsTrimR c) || ['❯'].isSuffixOf (jsTrimR c)))

/-! Section: terminal-manager.ts

JavaScript `Map`s are association lists in insertion order with unique keys;
`Map.get` is `lookupKey`, `Map.set` is `setKey`, `Map.delete` is `eraseKey`.
The `node-pty` process object of a session is modelled by its numeric pid;
calls into the pty are returned as `PtyEff` effects.  Subscriber callbacks
are opaque numeric identifiers; a `Set` of callbacks is a duplicate-free list
in insertion order. -/

def lookupKey {κ α : Type} [DecidableEq κ] (l : List (κ × α)) (k : κ) :
    Option α :=
  match l with
  | [] => none
  | (k', v) :: rest => if k' = k then some v else lookupKey rest k

def setKey {κ α : Type} [DecidableEq κ] (l : List (κ × α)) (k : κ) (v : α) :
    List (κ × α) :=
  if l.any (fun e => e.1 == k) then
    l.map (fun e => if e.1 = k then (k, v) else e)
  else
    l ++ [(k, v)]

def eraseKey {κ α : Type} [DecidableEq κ] (l : List (κ × α)) (k : κ) :
    List (κ × α) :=
  l.filter (fun e => e.1 != k)

/-- An effect on a pty / child process, recorded instead of performed. -/
inductive PtyEff where
  | spawned (pid : Nat) (cwd : String)
  | wrote (pid : Nat) (data : String)
  | resized (pid : Nat) (cols rows : Int)
  | killed (pid : Nat)
deriving DecidableEq, Repr

/-- JavaScript `data.split('\n')` on the character list: the segments between
newline characters, empty segments kept (`"".split('\n')` gives `[""]`, so
the result is never empty; the unreachable defensive branch keeps the match
total). -/
def splitNlL : List Char → List (List Char)
  | [] => [[]]
  | c :: cs =>
    match splitNlL cs with
    | [] => [[c]]
    | g :: gs => if c = '\n' then [] :: g :: gs else (c :: g) :: gs

/-- JavaScript `data.split('\n')` for a string. -/
def jsSplitNl (s : String) : List String :=
  (splitNlL s.toList).map (fun l => ⟨l⟩)

/-- Model of `node:path`'s `basename`, approximated: the last nonempty `/`-separated
component (used only for the cosmetic `projectName`). -/
def basename (p : String) : String :=
  (((p.splitOn "/").filter (fun c => c != "")).getLast?).getD p

/-- A terminal session (terminal-manager.ts lines 179-189); `ptyProcess` is
its pid, `createdAt`/`lastActivity` (`Date`s) are omitted. -/
structure TermSession where
  id : String
  projectPath : String
  projectName : String
  pid : Nat
  buffer : List String := []
  maxBufferLines : Nat := 5000
  subscribers : List Nat := []
deriving DecidableEq, Repr

/-- A terminal event (terminal-manager.ts lines 191-197). -/
inductive TerminalEvent where
  | output (sessionId : String) (data : String)
  | exited (sessionId : String) (exitCode : Int)
  | errorEv (sessionId : String)
  | created (sessionId : String)
deriving DecidableEq, Repr

/-- Embedded `SessionInfo` (terminal-manager.ts lines 199-206) without the `Date`
fields. -/
structure SessionInfo where
  id : String
  projectPath : String
  projectName : String
  bufferLines : Nat
deriving DecidableEq, Repr

/-- The two maps of `TerminalManager` (lines 209-210) plus counters that
resolve id generation (`Date.now`/`Math.random`) and the pid of a freshly
spawned pty. -/
structure TermState where
  sessions : List (String × TermSession) := []
  projectToSession : List (String × String) := []
  nextId : Nat := 0
  nextPid : Nat := 0
deriving DecidableEq, Repr

def setSession (st : TermState) (id : String) (s : TermSession) : TermState :=
  { st with sessions := setKey st.sessions id s }

/-- Well-formedness the manager maintains: every path-map entry points at a
registered session whose `projectPath` is that entry's key (sessions and
their path mapping are created and deleted together). -/
def TermState.pathMapConsistent (st : TermState) : Bool :=
  st.projectToSession.all (fun e =>
    match lookupKey st.sessions e.2 with
    | some s => s.projectPath == e.1
    | none => false)

/-- The session object built at terminal-manager.ts lines 282-292. -/
def newTermSession (id projectPath projectName : String) (pid : Nat) :
    TermSession :=
  { id := id, projectPath := projectPath, projectName := projectName,
    pid := pid, buffer := [], maxBufferLines := 5000, subscribers := [] }

namespace TerminalManager

/-- Embeds `getOrCreateSession` (lines 228-327).  `fsPaths` models the set of paths
for which `fs.existsSync` is true; `spawnErr = some m` makes `pty.spawn`
throw with message `m`.  `.error` is the thrown error's message.  The
`created` broadcast at line 324 reaches an empty subscriber set, so it
delivers nothing. -/
def getOrCreateSession (fsPaths : List String) (spawnErr : Option String)
    (st : TermState) (projectPath : String) :
    Except String (TermSession × TermState × List PtyEff) :=
  let existing :=
    match lookupKey st.projectToSession projectPath with
    | some existingId =>
      if existingId != "" then lookupKey st.sessions existingId else none
    | none => none
  match existing with
  | some s => .ok (s, st, [])
  | none =>
    if !(fsPaths.contains projectPath) then
      .error ("Project path does not exist: " ++ projectPath)
    else
      match spawnErr with
      | some m => .error ("Failed to create terminal: " ++ m)
      | none =>
        let id := "term_" ++ toString st.nextId
        let s := newTermSession id projectPath (basename projectPath) st.nextPid
        .ok (s,
             { sessions := setKey st.sessions id s,
               projectToSession := setKey st.projectToSession projectPath id,
               nextId := st.nextId + 1,
               nextPid := st.nextPid + 1 },
             [.spawned s.pid projectPath])

/-- The `onData` handler registered at lines 295-309: split the chunk on
newlines, append, trim the buffer to the most recent `maxBufferLines` lines
(`slice(-n)`, dead `n = 0` case modelled faithfully), then broadcast one
output event to the subscribers. -/
def terminalOnData (s : TermSession) (data : String) :
    TermSession × List (Nat × TerminalEvent) :=
  let lines := jsSplitNl data
  let b := s.buffer ++ lines
  let b' :=
    if b.length > s.maxBufferLines then
      if s.maxBufferLines = 0 then b else b.drop (b.length - s.maxBufferLines)
    else b
  ({ s with buffer := b' },
   s.subscribers.map (fun cb => (cb, .output s.id data)))

/-- Embeds `write` (lines 347-354): `false` if the session is unknown, else forward
the bytes to the pty. -/
def write (st : TermState) (sessionId data : String) : Bool × List PtyEff :=
  match lookupKey st.sessions sessionId with
  | none => (false, [])
  | some s => (true, [.wrote s.pid data])

/-- Embeds `resize` (lines 359-365). -/
def resize (st : TermState) (sessionId : String) (cols rows : Int) :
    Bool × List PtyEff :=
  match lookupKey st.sessions sessionId with
  | none => (false, [])
  | some s => (true, [.resized s.pid cols rows])

/-- The result of `close`. -/
structure CloseOut where
  ok : Bool
  state : TermState
  killed : List Nat
deriving DecidableEq, Repr

/-- Embeds `close` (lines 370-379): `false` and no effect when the session is
unknown; otherwise kill the pty and delete both map entries. -/
def close (st : TermState) (sessionId : String) : CloseOut :=
  match lookupKey st.sessions sessionId with
  | none => { ok := false, state := st, killed := [] }
  | some s =>
    { ok := true
    , state := { st with
        sessions := eraseKey st.sessions sessionId,
        projectToSession := eraseKey st.projectToSession s.projectPath }
    , killed := [s.pid] }

/-- The unsubscribe closure returned by a manager `subscribe`: either the
dummy `() => {}` or a deletion of one callback from one session's set. -/
inductive UnsubToken where
  | dummy
  | termSub (sessionId : String) (cb : Nat)
  | chatSub (sessionId : String) (cb : Nat)
deriving DecidableEq, Repr

/-- Embeds `subscribe` (lines 384-406): unknown session yields the dummy
unsubscribe and no replay; otherwise the callback joins the set and, when the
buffer is nonempty, immediately receives the joined buffer as one output
event. -/
def subscribe (st : TermState) (sessionId : String) (cb : Nat) :
    TermState × UnsubToken × List TerminalEvent :=
  match lookupKey st.sessions sessionId with
  | none => (st, .dummy, [])
  | some s =>
    let s' :=
      if s.subscribers.contains cb then s
      else { s with subscribers := s.subscribers ++ [cb] }
    (setSession st sessionId s', .termSub sessionId cb,
     if s.buffer.length > 0 then
       [.output sessionId (String.intercalate "\n" s.buffer)]
     else [])

/-- Applying the unsubscribe closure of `subscribe` (lines 403-405): delete
the callback from the captured session's subscriber set; the deletion is
observable only while the session is still registered. -/
def applyUnsubTerm (st : TermState) (sessionId : String) (cb : Nat) :
    TermState :=
  match lookupKey st.sessions sessionId with
  | none => st
  | some s =>
    setSession st sessionId { s with subscribers := s.subscribers.filter (fun c => c != cb) }

/-- Embeds `broadcast` (lines 411-419): `forEach` over the subscriber set invoking
every callback inside `try`/`catch`; a throwing callback is logged and does
not stop the loop, and the set is not modified.  `crashes cb` says whether
callback `cb` throws on this invocation; the returned log pairs each invoked
callback with that flag. -/
def broadcast (crashes : Nat → Bool) (s : TermSession) (ev : TerminalEvent) :
    TermSession × List (Nat × Bool × TerminalEvent) :=
  (s, s.subscribers.map (fun cb => (cb, crashes cb, ev)))

/-- Embeds `listSessions` (lines 424-433) without the `Date` fields. -/
def listSessions (st : TermState) : List SessionInfo :=
  st.sessions.map (fun e =>
    { id := e.2.id, projectPath := e.2.projectPath,
      projectName := e.2.projectName, bufferLines := e.2.buffer.length })

/-- Embeds `runCommand` (lines 451-458). -/
def runCommand (st : TermState) (sessionId command : String) :
    Bool × List PtyEff :=
  match lookupKey st.sessions sessionId with
  | none => (false, [])
  | some s => (true, [.wrote s.pid (command ++ "\r")])

end TerminalManager

/-! Section: cli-chat-manager.ts -/

inductive Role where
  | user
  | assistant
deriving DecidableEq, Repr

structure HistoryEntry where
  role : Role
  content : String
deriving DecidableEq, Repr

/-- A CLI chat session (cli-chat-manager.ts lines 15-25); `currentProcess` is
the pid of the attached child process, `createdAt` is omitted. -/
structure ChatSession where
  id : String
  projectPath : String
  projectName : String
  subscribers : List Nat := []
  isReady : Bool := true
  model : Option String := some "gemini-3-pro"
  currentProcess : Option Nat := none
  conversationHistory : List HistoryEntry := []
deriving DecidableEq, Repr

/-- Embedded `ChatSessionInfo` (lines 27-34) without `createdAt`. -/
structure ChatSessionInfo where
  id : String
  projectPath : String
  projectName : String
  model : Option String
  isReady : Bool
deriving DecidableEq, Repr

/-- The session map of `CLIChatManager` (line 37) plus counters resolving id
generation and spawned pids. -/
structure CLIChatState where
  sessions : List (String × ChatSession) := []
  nextId : Nat := 0
  nextPid : Nat := 0
deriving DecidableEq, Repr

def jsonOfStrOpt : Option String → Json
  | some s => .str s
  | none => .undefined

namespace CLIChatManager

def setChatSession (st : CLIChatState) (id : String) (s : ChatSession) :
    CLIChatState :=
  { st with sessions := setKey st.sessions id s }

/-- Embeds `create` (lines 51-78): register a fresh ready session and broadcast an
init event (to the still-empty subscriber set). -/
def create (st : CLIChatState) (projectPath : String) :
    ChatSession × CLIChatState × List (Nat × CLIEvent) :=
  let id := "chat_" ++ toString st.nextId
  let s : ChatSession :=
    { id := id, projectPath := projectPath, projectName := basename projectPath }
  (s,
   { st with sessions := setKey st.sessions id s, nextId := st.nextId + 1 },
   s.subscribers.map (fun cb =>
     (cb, { type := .init, sessionId := .str id, model := jsonOfStrOpt s.model })))

/-- The result of `send`: its boolean return, the new manager state, the pids
spawned and the events broadcast (each paired with the receiving callback). -/
structure SendOut where
  ok : Bool
  state : CLIChatState
  spawned : List Nat
  deliveries : List (Nat × CLIEvent)

/-- Embeds `send` (lines 83-193): unknown session returns `false`; otherwise the
user turn joins the history, a `user_message` and a `thinking` event are
broadcast, and a new `gemini` process is spawned unconditionally and attached
as `currentProcess` — the previously attached process, if any, is neither
checked nor terminated. -/
def send (st : CLIChatState) (sessionId message : String) (newPid : Nat) :
    SendOut :=
  match lookupKey st.sessions sessionId with
  | none => { ok := false, state := st, spawned := [], deliveries := [] }
  | some s =>
    let userEv : CLIEvent :=
      { type := .user_message, role := .str "user", content := .str message }
    let thinkEv : CLIEvent := { type := .thinking }
    let s' := { s with
      conversationHistory := s.conversationHistory ++ [⟨.user, message⟩],
      currentProcess := some newPid }
    { ok := true
    , state := setChatSession st sessionId s'
    , spawned := [newPid]
    , deliveries :=
        s.subscribers.map (fun cb => (cb, userEv)) ++
        s.subscribers.map (fun cb => (cb, thinkEv)) }

/-- Embeds `subscribe` (lines 198-221): unknown session yields the dummy
unsubscribe and no replay; otherwise the callback joins the set and, when the
session is ready, immediately receives one init event. -/
def subscribe (st : CLIChatState) (sessionId : String) (cb : Nat) :
    CLIChatState × TerminalManager.UnsubToken × List CLIEvent :=
  match lookupKey st.sessions sessionId with
  | none => (st, .dummy, [])
  | some s =>
    let s' :=
      if s.subscribers.contains cb then s
      else { s with subscribers := s.subscribers ++ [cb] }
    (setChatSession st sessionId s', .chatSub sessionId cb,
     if s.isReady then
       [{ type := .init, sessionId := .str sessionId, model := jsonOfStrOpt s.model }]
     else [])

/-- Applying the unsubscribe closure of `subscribe` (lines 218-220). -/
def applyUnsubChat (st : CLIChatState) (sessionId : String) (cb : Nat) :
    CLIChatState :=
  match lookupKey st.sessions sessionId with
  | none => st
  | some s =>
    setChatSession st sessionId
      { s with subscribers := s.subscribers.filter (fun c => c != cb) }

/-- Embeds `broadcast` (lines 223-231): same `forEach` + `try`/`catch` shape as the
terminal manager's. -/
def broadcast (crashes : Nat → Bool) (s : ChatSession) (ev : CLIEvent) :
    ChatSession × List (Nat × Bool × CLIEvent) :=
  (s, s.subscribers.map (fun cb => (cb, crashes cb, ev)))

/-- Embeds `close` (lines 233-244): kill the attached process, if any, and drop the
session. -/
def close (st : CLIChatState) (sessionId : String) :
    CLIChatState × List Nat :=
  match lookupKey st.sessions sessionId with
  | none => (st, [])
  | some s =>
    ({ st with sessions := eraseKey st.sessions sessionId },
     match s.currentProcess with
     | some pid => [pid]
     | none => [])

/-- Embeds `listSessions` (lines 250-259) without `createdAt`. -/
def listSessions (st : CLIChatState) : List ChatSessionInfo :=
  st.sessions.map (fun e =>
    { id := e.2.id, projectPath := e.2.projectPath,
      projectName := e.2.projectName, model := e.2.model,
      isReady := e.2.isReady })

end CLIChatManager

/-! Section: state.ts (src/unnamed/part_000, lines 302-412) -/

/-- The on-disk condition of the daemon-state file: absent, unreadable or
unparsable (`JSON.parse` throws), or holding a parsed JSON value. -/
inductive DiskFile where
  | absent
  | unreadable
  | stored (j : Json)

/-- The `DaemonState` record (lines 316-322).  Field values are kept as the
Json values the `{...DEFAULT_STATE, ...JSON.parse(data)}` spread produces;
`lastError` is optional and absent from `DEFAULT_STATE`. -/
structure DaemonStateJ where
  activeProject : Json
  recentProjects : Json
  cliPid : Json
  status : Json
  lastError : Option Json := none

/-- Embedded `DEFAULT_STATE` (lines 324-329). -/
def DEFAULT_STATE : DaemonStateJ :=
  { activeProject := .null
  , recentProjects := .arr []
  , cliPid := .null
  , status := .str "idle" }

def fieldOr (j : Json) (k : String) (d : Json) : Json :=
  match j with
  | .obj fs => (jlookup k fs).getD d
  | _ => d

def fieldOpt (j : Json) (k : String) : Option Json :=
  match j with
  | .obj fs => jlookup k fs
  | _ => none

/-- The spread `{...DEFAULT_STATE, ...parsed}` (line 379): a named field
comes from `parsed` when it is an object carrying that key, else from
`DEFAULT_STATE` (spreading a non-object contributes none of these keys). -/
def spreadOnDefault (j : Json) : DaemonStateJ :=
  { activeProject := fieldOr j "activeProject" DEFAULT_STATE.activeProject
  , recentProjects := fieldOr j "recentProjects" DEFAULT_STATE.recentProjects
  , cliPid := fieldOr j "cliPid" DEFAULT_STATE.cliPid
  , status := fieldOr j "status" DEFAULT_STATE.status
  , lastError := fieldOpt j "lastError" }

/-- Embeds `loadState` (lines 370-383): defaults when the file is absent, defaults
when reading/parsing throws (the `catch`), else the spread onto the
defaults.  Total by construction — no disk condition makes it throw. -/
def loadState : DiskFile → DaemonStateJ
  | .absent => DEFAULT_STATE
  | .unreadable => DEFAULT_STATE
  | .stored j => spreadOnDefault j

/-- Model of `JSON.stringify` of a `DaemonState` as written by `saveState` (lines
388-391); `lastError` is skipped when `undefinedined`. -/
def stateToJson (d : DaemonStateJ) : Json :=
  .obj ([("activeProject", d.activeProject),
         ("recentProjects", d.recentProjects),
         ("cliPid", d.cliPid),
         ("status", d.status)] ++
        (match d.lastError with
         | some e => [("lastError", e)]
         | none => []))

def saveState (d : DaemonStateJ) : DiskFile :=
  .stored (stateToJson d)

/-- Embeds `updateState` (lines 396-401) specialised to the two fields every daemon
call site passes (`activeProject` and `status`). -/
def updateStateAS (d : DiskFile) (ap stt : Json) : DiskFile :=
  let cur := loadState d
  saveState { cur with activeProject := ap, status := stt }

/-- Embeds `addRecentProject` (lines 406-412): drop the path from the recent list,
push it to the front, keep 10.  A `recentProjects` that is not an array
would make the JavaScript `filter` call throw; such a value never reaches
disk through `saveState`/`addRecentProject`, and the model keeps the
function total by treating it as empty. -/
def addRecentProject (d : DiskFile) (projectPath : String) : DiskFile :=
  let st := loadState d
  let xs :=
    match st.recentProjects with
    | .arr elems => elems
    | _ => []
  let recent := xs.filter (fun x =>
    match x with
    | .str s => s != projectPath
    | _ => true)
  saveState { st with recentProjects := .arr ((Json.str projectPath :: recent).take 10) }

/-- Embeds `validateToken` (lines 362-365): strict equality against the stored
bearer secret. -/
def validateToken (secret tok : String) : Bool :=
  tok == secret

/-! Section: daemon gateway (src/unnamed/part_002)

`handleMessage` is embedded from the point where the wire string has been
parsed (`JSON.parse` at line 122; a parse failure only yields an
`Invalid JSON` error response).  WebSocket connections are numeric ids;
`sendTo`/`broadcast`-to-all become `Out.toClient`/`Out.toAll`; calls into
`node-pty`, `child_process.spawn` and the Gemini HTTP API become effect
entries. -/

/-- The parsed inbound message (part_002 lines 24-55), with `none` for
absent optional fields. -/
structure IncomingMsg where
  type : String
  token : String
  message : Option String := none
  projectPath : Option String := none
  sessionId : Option String := none
  data : Option String := none
  cols : Option Int := none
  rows : Option Int := none

/-- JavaScript `!x` for an optional string field (`undefinedined` and `""` are
falsy). -/
def strFalsy : Option String → Bool
  | none => true
  | some s => s == ""

/-- JavaScript `!x` for an optional number field (`undefinedined` and `0` are
falsy). -/
def intFalsy : Option Int → Bool
  | none => true
  | some n => n == 0

/-- An outbound message (part_002 lines 57-83), restricted to the variants
the embedded handlers emit. -/
inductive OutgoingMsg where
  | errorMsg (data : String)
  | statusMsg (state : DaemonStateJ)
  | projects (recents : Json)
  | ready (data : String)
  | terminalOutput (sessionId data : String)
  | terminalExit (sessionId : String) (exitCode : Int)
  | terminalCreatedMsg (sessionId data : String)
  | terminalListMsg (sessions : List SessionInfo)
  | terminalClosed (sessionId : String)
  | cliChatEvent (sessionId : String) (event : CLIEvent)
  | cliChatCreated (sessionId data : String)
  | cliChatListMsg (sessions : List ChatSessionInfo)

/-- An observable output of handling one message. -/
inductive Out where
  | toClient (ws : Nat) (m : OutgoingMsg)
  | toAll (m : OutgoingMsg)
  | pty (e : PtyEff)
  | spawnedChat (pid : Nat) (message : String)
  | geminiApi (message : String) (project : Json)

/-- Per-connection gateway state (part_002 lines 86-90). -/
structure ClientState where
  subscriptions : List String := []
  unsubscribeFns : List (String × TerminalManager.UnsubToken) := []

/-- The whole daemon: the process-wide singletons (both managers, the durable
state file, the client table) plus the environment oracles (existing
filesystem paths, pty spawn failure) and counters resolving fresh callback
identities. -/
structure HubState where
  secret : String
  term : TermState := {}
  chat : CLIChatState := {}
  disk : DiskFile := .absent
  clients : List (Nat × ClientState) := []
  subOwner : List (Nat × Nat) := []
  fsPaths : List String := []
  spawnErr : Option String := none
  nextSub : Nat := 0

/-- Run one stored unsubscribe closure against the daemon. -/
def applyUnsub (st : HubState) : TerminalManager.UnsubToken → HubState
  | .dummy => st
  | .termSub sid cb => { st with term := TerminalManager.applyUnsubTerm st.term sid cb }
  | .chatSub sid cb => { st with chat := CLIChatManager.applyUnsubChat st.chat sid cb }

/-- Embeds `handleTerminalEvent` (part_002 lines 402-419): forward output and exit
events to the owning connection, drop the rest. -/
def handleTerminalEvent (ws : Nat) : TerminalEvent → List Out
  | .output sid data => [.toClient ws (.terminalOutput sid data)]
  | .exited sid code => [.toClient ws (.terminalExit sid code)]
  | _ => []

/-- Model of `Set.add` on a list-modelled set. -/
def addToSet {α : Type} [DecidableEq α] (l : List α) (x : α) : List α :=
  if l.contains x then l else l ++ [x]

/-- JavaScript `o || d` for an optional string. -/
def strOrDefault (o : Option String) (d : String) : String :=
  match o with
  | some s => if s == "" then d else s
  | none => d

/-- The `switch (msg.type)` body of `handleMessage` (part_002 lines
138-396), reached after token validation and client lookup. -/
def dispatch (st : HubState) (ws : Nat) (cs : ClientState) (msg : IncomingMsg) :
    HubState × List Out :=
  if msg.type = "status" then
    (st, [.toClient ws (.statusMsg (loadState st.disk))])
  else if msg.type = "list-projects" then
    (st, [.toClient ws (.projects (loadState st.disk).recentProjects)])
  else if msg.type = "switch-project" then
    if strFalsy msg.projectPath then
      (st, [.toClient ws (.errorMsg "projectPath required")])
    else
      let p := msg.projectPath.getD ""
      let d1 := addRecentProject st.disk p
      let d2 := updateStateAS d1 (.str p) (.str "ready")
      ({ st with disk := d2 },
       [.toAll (.ready ("Project loaded: " ++ p)),
        .toAll (.statusMsg (loadState d2))])
  else if msg.type = "chat" then
    if strFalsy msg.message then
      (st, [.toClient ws (.errorMsg "message required")])
    else
      let cur := loadState st.disk
      if !cur.activeProject.truthy then
        (st, [.toClient ws (.errorMsg "No project selected. Switch to a project first.")])
      else
        (st, [.geminiApi (msg.message.getD "") cur.activeProject])
  else if msg.type = "stop" then
    let d := updateStateAS st.disk .null (.str "idle")
    ({ st with disk := d }, [.toAll (.statusMsg (loadState d))])
  else if msg.type = "terminal-create" then
    if strFalsy msg.projectPath then
      (st, [.toClient ws (.errorMsg "projectPath required")])
    else
      let p := msg.projectPath.getD ""
      match TerminalManager.getOrCreateSession st.fsPaths st.spawnErr st.term p with
      | .error m =>
        (st, [.toClient ws (.errorMsg ("Failed to create terminal: " ++ m))])
      | .ok (sess, term1, effs) =>
        let cb := st.nextSub
        let sub := TerminalManager.subscribe term1 sess.id cb
        let cs' := { cs with
          subscriptions := addToSet cs.subscriptions sess.id,
          unsubscribeFns := setKey cs.unsubscribeFns sess.id sub.2.1 }
        let d1 := addRecentProject st.disk p
        ({ st with
            term := sub.1
            disk := d1
            clients := setKey st.clients ws cs'
            subOwner := setKey st.subOwner cb ws
            nextSub := st.nextSub + 1 },
         effs.map Out.pty ++
         ((sub.2.2).map (handleTerminalEvent ws)).flatten ++
         [.toClient ws (.terminalCreatedMsg sess.id sess.projectName),
          .toAll (.terminalListMsg (TerminalManager.listSessions sub.1))])
  else if msg.type = "terminal-write" then
    if strFalsy msg.sessionId || msg.data == none then
      (st, [.toClient ws (.errorMsg "sessionId and data required")])
    else
      let w := TerminalManager.write st.term (msg.sessionId.getD "") (msg.data.getD "")
      (st, w.2.map Out.pty ++
           (if !w.1 then [.toClient ws (.errorMsg "Session not found")] else []))
  else if msg.type = "terminal-resize" then
    if strFalsy msg.sessionId || intFalsy msg.cols || intFalsy msg.rows then
      (st, [.toClient ws (.errorMsg "sessionId, cols, and rows required")])
    else
      let r := TerminalManager.resize st.term (msg.sessionId.getD "")
        (msg.cols.getD 0) (msg.rows.getD 0)
      (st, r.2.map Out.pty)
  else if msg.type = "terminal-close" then
    if strFalsy msg.sessionId then
      (st, [.toClient ws (.errorMsg "sessionId required")])
    else
      let sid := msg.sessionId.getD ""
      let c := TerminalManager.close st.term sid
      ({ st with term := c.state },
       c.killed.map (fun p => Out.pty (.killed p)) ++
       [.toClient ws (.terminalClosed sid)])
  else if msg.type = "terminal-list" then
    (st, [.toClient ws (.terminalListMsg (TerminalManager.listSessions st.term))])
  else if msg.type = "terminal-subscribe" then
    if strFalsy msg.sessionId then
      (st, [.toClient ws (.errorMsg "sessionId required")])
    else
      let sid := msg.sessionId.getD ""
      if cs.subscriptions.contains sid then (st, [])
      else
        let cb := st.nextSub
        let sub := TerminalManager.subscribe st.term sid cb
        let cs' := { cs with
          subscriptions := addToSet cs.subscriptions sid,
          unsubscribeFns := setKey cs.unsubscribeFns sid sub.2.1 }
        ({ st with
            term := sub.1
            clients := setKey st.clients ws cs'
            subOwner := setKey st.subOwner cb ws
            nextSub := st.nextSub + 1 },
         ((sub.2.2).map (handleTerminalEvent ws)).flatten)
  else if msg.type = "terminal-unsubscribe" then
    if strFalsy msg.sessionId then
      (st, [.toClient ws (.errorMsg "sessionId required")])
    else
      let sid := msg.sessionId.getD ""
      match lookupKey cs.unsubscribeFns sid with
      | some tok =>
        let st1 := applyUnsub st tok
        let cs' := { cs with
          subscriptions := cs.subscriptions.filter (fun x => x != sid),
          unsubscribeFns := eraseKey cs.unsubscribeFns sid }
        ({ st1 with clients := setKey st1.clients ws cs' }, [])
      | none => (st, [])
  else if msg.type = "terminal-run-gemini" then
    if strFalsy msg.sessionId then
      (st, [.toClient ws (.errorMsg "sessionId required")])
    else
      let r := TerminalManager.runCommand st.term (msg.sessionId.getD "") "gemini"
      (st, r.2.map Out.pty)
  else if msg.type = "cli-chat-create" then
    if strFalsy msg.projectPath then
      (st, [.toClient ws (.errorMsg "projectPath required")])
    else
      let c := CLIChatManager.create st.chat (msg.projectPath.getD "")
      ({ st with chat := c.2.1 },
       [.toClient ws (.cliChatCreated c.1.id (strOrDefault c.1.model "gemini"))])
  else if msg.type = "cli-chat-send" then
    if strFalsy msg.sessionId || strFalsy msg.message then
      (st, [.toClient ws (.errorMsg "sessionId and message required")])
    else
      let sid := msg.sessionId.getD ""
      let m := msg.message.getD ""
      let r := CLIChatManager.send st.chat sid m st.chat.nextPid
      let chat' :=
        if r.ok then { r.state with nextPid := r.state.nextPid + 1 } else r.state
      ({ st with chat := chat' },
       (r.deliveries.map (fun d =>
          match lookupKey st.subOwner d.1 with
          | some w => [Out.toClient w (.cliChatEvent sid d.2)]
          | none => [])).flatten ++
       r.spawned.map (fun p => Out.spawnedChat p m) ++
       (if !r.ok then [.toClient ws (.errorMsg "Failed to send message")] else []))
  else if msg.type = "cli-chat-subscribe" then
    if strFalsy msg.sessionId then
      (st, [.toClient ws (.errorMsg "sessionId required")])
    else
      let sid := msg.sessionId.getD ""
      let cb := st.nextSub
      let r := CLIChatManager.subscribe st.chat sid cb
      let cs' := { cs with
        unsubscribeFns := setKey cs.unsubscribeFns ("chat_" ++ sid) r.2.1 }
      ({ st with
          chat := r.1
          clients := setKey st.clients ws cs'
          subOwner := setKey st.subOwner cb ws
          nextSub := st.nextSub + 1 },
       (r.2.2).map (fun ev => Out.toClient ws (.cliChatEvent sid ev)))
  else if msg.type = "cli-chat-list" then
    (st, [.toClient ws (.cliChatListMsg (CLIChatManager.listSessions st.chat))])
  else if msg.type = "cli-chat-close" then
    if strFalsy msg.sessionId then
      (st, [.toClient ws (.errorMsg "sessionId required")])
    else
      let c := CLIChatManager.close st.chat (msg.sessionId.getD "")
      ({ st with chat := c.1 }, c.2.map (fun p => Out.pty (.killed p)))
  else
    (st, [.toClient ws (.errorMsg ("Unknown message type: " ++ msg.type))])

/-- Embeds `handleMessage` (part_002 lines 118-397) from the parsed message on:
validate the bearer token, look up the connection's state, dispatch.  An
invalid token yields only the error response; an untracked connection yields
nothing. -/
def handleMessage (st : HubState) (ws : Nat) (msg : IncomingMsg) :
    HubState × List Out :=
  if !(validateToken st.secret msg.token) then
    (st, [.toClient ws (.errorMsg "Invalid auth token")])
  else
    match lookupKey st.clients ws with
    | none => (st, [])
    | some cs => dispatch st ws cs msg

/-! Section: Shared helper lemmas -/

theorem lookupKey_setKey_mem {κ α : Type} [DecidableEq κ]
    (l : List (κ × α)) (k : κ) (v : α) (h : l.any (fun e => e.1 == k) = true) :
    lookupKey (l.map (fun e => if e.1 = k then (k, v) else e)) k = some v := by
  induction l with
  | nil => simp at h
  | cons e es ih =>
    rcases e with ⟨k', v'⟩
    by_cases hk : k' = k
    · subst hk
      show lookupKey ((if k' = k' then (k', v) else (k', v')) :: _) k' = some v
      rw [if_pos rfl]
      unfold lookupKey
      rw [if_pos rfl]
    · have h' : es.any (fun e => e.1 == k) = true := by
        simp only [List.any_cons, Bool.or_eq_true, beq_iff_eq] at h
        rcases h with h1 | h1
        · exact absurd h1 hk
        · exact h1
      show lookupKey ((if k' = k then (k, v) else (k', v')) :: _) k = some v
      rw [if_neg hk]
      unfold lookupKey
      rw [if_neg hk]
      exact ih h'

theorem lookupKey_append_single {κ α : Type} [DecidableEq κ]
    (l : List (κ × α)) (k : κ) (v : α) (h : l.any (fun e => e.1 == k) = false) :
    lookupKey (l ++ [(k, v)]) k = some v := by
  induction l with
  | nil => simp [lookupKey]
  | cons e es ih =>
    rcases e with ⟨k', v'⟩
    simp only [List.any_cons, Bool.or_eq_false_iff, beq_eq_false_iff_ne, ne_eq] at h
    show lookupKey ((k', v') :: (es ++ [(k, v)])) k = some v
    unfold lookupKey
    rw [if_neg h.1]
    exact ih h.2

theorem lookupKey_setKey {κ α : Type} [DecidableEq κ]
    (l : List (κ × α)) (k : κ) (v : α) :
    lookupKey (setKey l k v) k = some v := by
  unfold setKey
  by_cases h : l.any (fun e => e.1 == k) = true
  · rw [if_pos h]
    exact lookupKey_setKey_mem l k v h
  · rw [if_neg h]
    refine lookupKey_append_single l k v ?_
    revert h
    cases l.any (fun e => e.1 == k) <;> simp

theorem mem_of_lookupKey {κ α : Type} [DecidableEq κ] :
    ∀ {l : List (κ × α)} {k : κ} {v : α}, lookupKey l k = some v → (k, v) ∈ l := by
  intro l
  induction l with
  | nil => intro k v h; simp [lookupKey] at h
  | cons e es ih =>
    intro k v h
    rcases e with ⟨k', v'⟩
    unfold lookupKey at h
    by_cases hk : k' = k
    · rw [if_pos hk] at h
      cases h
      subst hk
      exact List.mem_cons_self _ _
    · rw [if_neg hk] at h
      exact List.mem_cons_of_mem _ (ih h)

theorem lookupKey_eraseKey_self {κ α : Type} [DecidableEq κ]
    (l : List (κ × α)) (k : κ) :
    lookupKey (eraseKey l k) k = none := by
  induction l with
  | nil => rfl
  | cons e es ih =>
    rcases e with ⟨k', v'⟩
    by_cases hk : k' = k
    · simpa [eraseKey, List.filter_cons, hk] using ih
    · simpa [eraseKey, List.filter_cons, hk, lookupKey] using ih

theorem map_fst_tag {β : Type} (l : List Nat) (g : Nat → β) :
    (l.map (fun cb => (cb, g cb))).map (fun i => i.1) = l := by
  induction l with
  | nil => rfl
  | cons x xs ih => simpa using ih

theorem mem_eraseKey {κ α : Type} [DecidableEq κ]
    {l : List (κ × α)} {k : κ} {e : κ × α} (h : e ∈ eraseKey l k) :
    e ∈ l ∧ e.1 ≠ k := by
  unfold eraseKey at h
  rw [List.mem_filter] at h
  refine ⟨h.1, ?_⟩
  have := h.2
  simpa using this

/-! Section: Claim theorems -/

/-- C5: an inbound message whose bearer token fails validation yields exactly
the `Invalid auth token` error response to that connection and leaves the
entire daemon — both session managers, the durable state file, the client
table and every counter — unchanged, regardless of the command type. -/
theorem handleMessage_invalid_token_no_side_effect
    (st : HubState) (ws : Nat) (msg : IncomingMsg)
    (h : validateToken st.secret msg.token = false) :
    handleMessage st ws msg =
      (st, [Out.toClient ws (OutgoingMsg.errorMsg "Invalid auth token")]) := by
  unfold handleMessage
  rw [h]
  rfl

/-- C5 witness: a concrete `stop` command with a wrong token is rejected with
no state change. -/
theorem handleMessage_invalid_token_witness :
    handleMessage { secret := "ah_s3cret" } 1 { type := "stop", token := "wrong" } =
      ({ secret := "ah_s3cret" },
       [Out.toClient 1 (OutgoingMsg.errorMsg "Invalid auth token")]) :=
  handleMessage_invalid_token_no_side_effect _ _ _ rfl

/-- C10: `loadState` is total and defaulting: an absent file, an unreadable or
unparsable file, a parsed non-object, and a parsed object missing fields all
yield a complete record whose missing fields carry the defaults
(`activeProject` null, `recentProjects` empty, `cliPid` null, `status`
idle). -/
theorem loadState_total_defaulting :
    loadState .absent = DEFAULT_STATE ∧
    loadState .unreadable = DEFAULT_STATE ∧
    (∀ j : Json, (∀ fs, j ≠ Json.obj fs) → loadState (.stored j) = DEFAULT_STATE) ∧
    (∀ fs : List (String × Json),
      (jlookup "activeProject" fs = none →
        (loadState (.stored (.obj fs))).activeProject = Json.null) ∧
      (jlookup "recentProjects" fs = none →
        (loadState (.stored (.obj fs))).recentProjects = Json.arr []) ∧
      (jlookup "cliPid" fs = none →
        (loadState (.stored (.obj fs))).cliPid = Json.null) ∧
      (jlookup "status" fs = none →
        (loadState (.stored (.obj fs))).status = Json.str "idle")) ∧
    DEFAULT_STATE.activeProject = Json.null ∧
    DEFAULT_STATE.recentProjects = Json.arr [] ∧
    DEFAULT_STATE.status = Json.str "idle" := by
  refine ⟨rfl, rfl, ?_, ?_, rfl, rfl, rfl⟩
  · intro j hj
    cases j with
    | obj fs => exact absurd rfl (hj fs)
    | undefined => rfl
    | null => rfl
    | bool b => rfl
    | num n => rfl
    | str s => rfl
    | arr xs => rfl
  · intro fs
    refine ⟨?_, ?_, ?_, ?_⟩ <;>
      · intro h
        simp [loadState, spreadOnDefault, fieldOr, h, DEFAULT_STATE]

/-- C10 witness: a stored object carrying only `activeProject` loads with the
defaults for every other field. -/
theorem loadState_total_defaulting_witness :
    (loadState (.stored (Json.obj [("activeProject", Json.str "/p")]))).recentProjects
      = Json.arr [] ∧
    (loadState (.stored (Json.obj [("activeProject", Json.str "/p")]))).status
      = Json.str "idle" ∧
    loadState .absent = DEFAULT_STATE := by
  have h := loadState_total_defaulting
  exact ⟨(h.2.2.2.1 _).2.1 rfl, (h.2.2.2.1 _).2.2.2 rfl, h.1⟩

/-- Lemma: `runChunks` returns the cumulative concatenations, and the final
accumulator holds the whole concatenation. -/
theorem runChunks_spec (cs : List String) : ∀ a : MessageAccumulator,
    (runChunks a cs).2 = specCumulative a.currentMessage cs ∧
    (runChunks a cs).1.currentMessage = a.currentMessage ++ concatAll cs := by
  induction cs with
  | nil => intro a; simp [runChunks, specCumulative, concatAll]
  | cons c cs ih =>
    intro a
    constructor
    · show ((a.addChunk c).1 :: (runChunks (a.addChunk c).2 cs).2) = _
      rw [(ih (a.addChunk c).2).1]
      rfl
    · show (runChunks (a.addChunk c).2 cs).1.currentMessage = _
      rw [(ih (a.addChunk c).2).2]
      show (a.currentMessage ++ c) ++ concatAll cs = a.currentMessage ++ (c ++ concatAll cs)
      rw [String.append_assoc]

/-- C2 (amended): each `addChunk` returns the concatenation of all chunks
added so far, and `complete()` returns the full concatenation — but it clears
only the streaming flag: the message state still holds the full concatenation
afterwards, and only the separate `reset()` (which the chat manager calls
after `complete`) clears it to the empty string. -/
theorem messageAccumulator_spec (cs : List String) :
    (runChunks {} cs).2 = specCumulative "" cs ∧
    ((runChunks {} cs).1.complete).1 = concatAll cs ∧
    ((runChunks {} cs).1.complete).2.currentMessage = concatAll cs ∧
    ((runChunks {} cs).1.complete).2.isStreaming = false ∧
    (((runChunks {} cs).1.complete).2.reset).currentMessage = "" := by
  have h := runChunks_spec cs {}
  have h2 : ("" : String) ++ concatAll cs = concatAll cs := by
    simp
  refine ⟨h.1, ?_, ?_, rfl, rfl⟩
  · show (runChunks {} cs).1.currentMessage = concatAll cs
    rw [h.2]; exact h2
  · show (runChunks {} cs).1.currentMessage = concatAll cs
    rw [h.2]; exact h2

/-- C2 counterexample: after the chunks `"Hel"`, `"lo "`, `"world"`,
`complete()` returns `"Hello world"` but does not reset the internal message
state — `currentMessage` (as read by `getCurrentMessage`) is still
`"Hello world"`, not `""`. -/
theorem messageAccumulator_complete_does_not_reset :
    (runChunks {} ["Hel", "lo ", "world"]).2 = ["Hel", "Hello ", "Hello world"] ∧
    ((runChunks {} ["Hel", "lo ", "world"]).1.complete).1 = "Hello world" ∧
    ((runChunks {} ["Hel", "lo ", "world"]).1.complete).2.getCurrentMessage
      = "Hello world" ∧
    ¬ (((runChunks {} ["Hel", "lo ", "world"]).1.complete).2.getCurrentMessage
      = "") := by
  refine ⟨rfl, rfl, rfl, ?_⟩
  decide

/-- C2 witness: the three-chunk scenario, through the proved theorem. -/
theorem messageAccumulator_spec_witness :
    (runChunks {} ["Hel", "lo ", "world"]).2 = ["Hel", "Hello ", "Hello world"] ∧
    ((runChunks {} ["Hel", "lo ", "world"]).1.complete).1 = "Hello world" := by
  have h := messageAccumulator_spec ["Hel", "lo ", "world"]
  exact ⟨h.1.trans (by decide), h.2.1.trans (by decide)⟩

/-- C8: both managers' broadcast invokes every registered subscriber callback
exactly once, in registration order, even when some callbacks throw — a
throwing callback (its invocation is caught and logged) neither prevents
delivery to the remaining subscribers nor removes itself from the subscriber
set. -/
theorem broadcast_isolates_failures (crashes : Nat → Bool)
    (s : TermSession) (ev : TerminalEvent)
    (c : ChatSession) (cev : CLIEvent) :
    ((TerminalManager.broadcast crashes s ev).1 = s ∧
     (TerminalManager.broadcast crashes s ev).2.map (fun i => i.1) = s.subscribers ∧
     (∀ cb ∈ s.subscribers,
       (cb, crashes cb, ev) ∈ (TerminalManager.broadcast crashes s ev).2)) ∧
    ((CLIChatManager.broadcast crashes c cev).1 = c ∧
     (CLIChatManager.broadcast crashes c cev).2.map (fun i => i.1) = c.subscribers ∧
     (∀ cb ∈ c.subscribers,
       (cb, crashes cb, cev) ∈ (CLIChatManager.broadcast crashes c cev).2)) := by
  refine ⟨⟨rfl, ?_, ?_⟩, ⟨rfl, ?_, ?_⟩⟩
  · exact map_fst_tag s.subscribers (fun cb => (crashes cb, ev))
  · intro cb hcb
    exact List.mem_map_of_mem _ hcb
  · exact map_fst_tag c.subscribers (fun cb => (crashes cb, cev))
  · intro cb hcb
    exact List.mem_map_of_mem _ hcb

/-- C8 witness: two subscribers, the first throwing — both are invoked and
the set is unchanged. -/
theorem broadcast_isolates_failures_witness :
    (TerminalManager.broadcast (fun cb => cb == 1)
      { id := "t", projectPath := "/p", projectName := "p", pid := 0,
        subscribers := [1, 2] } (.created "t")).2
      = [(1, true, .created "t"), (2, false, .created "t")] ∧
    (TerminalManager.broadcast (fun cb => cb == 1)
      { id := "t", projectPath := "/p", projectName := "p", pid := 0,
        subscribers := [1, 2] } (.created "t")).1.subscribers = [1, 2] := by
  have h := broadcast_isolates_failures (fun cb => cb == 1)
    { id := "t", projectPath := "/p", projectName := "p", pid := 0,
      subscribers := [1, 2] } (.created "t")
    { id := "c", projectPath := "/p", projectName := "p" } { type := .thinking }
  exact ⟨rfl, by rw [h.1.1]⟩

/-- C9: subscribing to a session id absent from the registry, in either the
terminal manager or the chat manager, does not throw, delivers no event and
changes nothing; the returned unsubscribe closure is the dummy one, and
applying it (any number of times) leaves any daemon state unchanged. -/
theorem subscribe_unknown_session_noop (tst : TermState) (cst : CLIChatState)
    (sid : String) (cb : Nat)
    (ht : lookupKey tst.sessions sid = none)
    (hc : lookupKey cst.sessions sid = none) :
    TerminalManager.subscribe tst sid cb = (tst, .dummy, []) ∧
    CLIChatManager.subscribe cst sid cb = (cst, .dummy, []) ∧
    (∀ hs : HubState, applyUnsub hs .dummy = hs) := by
  refine ⟨?_, ?_, fun hs => rfl⟩
  · unfold TerminalManager.subscribe
    rw [ht]
  · unfold CLIChatManager.subscribe
    rw [hc]

/-- C9 witness: both managers with empty registries. -/
theorem subscribe_unknown_session_noop_witness :
    TerminalManager.subscribe {} "nope" 0 = ({}, .dummy, []) ∧
    CLIChatManager.subscribe {} "nope" 0 = ({}, .dummy, []) :=
  ⟨(subscribe_unknown_session_noop {} {} "nope" 0 rfl rfl).1,
   (subscribe_unknown_session_noop {} {} "nope" 0 rfl rfl).2.1⟩

/-- C1 counterexample: a chat session with a process still attached
(`currentProcess = some 7`) nevertheless gets a fresh invocation process
spawned by `send` — `send` never checks for an attached process. -/
theorem send_spawns_despite_attached_process :
    (CLIChatManager.send
      { sessions := [("s1",
          { id := "s1", projectPath := "/p", projectName := "p",
            currentProcess := some 7 })] }
      "s1" "hi" 8).spawned = [8] ∧
    (CLIChatManager.send
      { sessions := [("s1",
          { id := "s1", projectPath := "/p", projectName := "p",
            currentProcess := some 7 })] }
      "s1" "hi" 8).ok = true ∧
    ({ id := "s1", projectPath := "/p", projectName := "p",
       currentProcess := some 7 } : ChatSession).currentProcess ≠ none := by
  refine ⟨rfl, rfl, ?_⟩
  decide

/-- C1 (amended): `send` starts a new invocation process exactly when the
session exists, regardless of whether a process is currently attached; the
new process is attached to the session, overwriting `currentProcess`, and
the user turn is appended to the conversation history. -/
theorem send_spawns_iff_session_exists
    (st : CLIChatState) (sid m : String) (pid : Nat) :
    ((CLIChatManager.send st sid m pid).spawned ≠ [] ↔
      lookupKey st.sessions sid ≠ none) ∧
    (∀ s, lookupKey st.sessions sid = some s →
      (CLIChatManager.send st sid m pid).spawned = [pid] ∧
      (CLIChatManager.send st sid m pid).ok = true ∧
      lookupKey (CLIChatManager.send st sid m pid).state.sessions sid =
        some { s with
          conversationHistory := s.conversationHistory ++ [⟨Role.user, m⟩],
          currentProcess := some pid }) := by
  constructor
  · cases h : lookupKey st.sessions sid with
    | none =>
      unfold CLIChatManager.send
      rw [h]
      simp
    | some s =>
      unfold CLIChatManager.send
      rw [h]
      simp
  · intro s h
    unfold CLIChatManager.send
    rw [h]
    refine ⟨rfl, rfl, ?_⟩
    exact lookupKey_setKey _ _ _

/-- C1 witness: on an existing session with no attached process, `send`
spawns and attaches the new pid. -/
theorem send_spawns_iff_session_exists_witness :
    (CLIChatManager.send
      { sessions := [("a", { id := "a", projectPath := "/p", projectName := "p" })] }
      "a" "m" 3).spawned = [3] ∧
    lookupKey (CLIChatManager.send
      { sessions := [("a", { id := "a", projectPath := "/p", projectName := "p" })] }
      "a" "m" 3).state.sessions "a" =
      some { id := "a", projectPath := "/p", projectName := "p",
             conversationHistory := [⟨Role.user, "m"⟩],
             currentProcess := some 3 } := by
  have h := (send_spawns_iff_session_exists
    { sessions := [("a", { id := "a", projectPath := "/p", projectName := "p" })] }
    "a" "m" 3).2 _ rfl
  exact ⟨h.1, h.2.2⟩

/-- C3 counterexample: a `result` line whose JSON carries no `stats` object
at all yields a completion event whose statistics record is absent
(`undefinedined`), not an all-zero record. -/
theorem parseCLIJson_result_no_stats_cex :
    (parseCLIJson (Json.obj [("type", Json.str "result")])).map CLIEvent.stats
      = some none := rfl

/-- C3 (amended): every parsed line with discriminator `result` yields a
completion event; when the source JSON carries a (truthy) `stats` object the
statistics record is present with every absent field defaulted to zero, but
when `stats` is absent or falsy the statistics record itself is
absent/undefinedined. -/
theorem parseCLIJson_result_stats_defaulted (j : Json)
    (hty : j.get "type" = Json.str "result") :
    parseCLIJson j =
      some { type := CLIEventType.complete,
             stats := if (j.get "stats").truthy then
               some (resultStats (j.get "stats")) else none } ∧
    (∀ s : Json,
      (s.get "total_tokens" = Json.undefined →
        (resultStats s).totalTokens = Json.num 0) ∧
      (s.get "input_tokens" = Json.undefined → s.get "input" = Json.undefined →
        (resultStats s).inputTokens = Json.num 0) ∧
      (s.get "output_tokens" = Json.undefined → s.get "output" = Json.undefined →
        (resultStats s).outputTokens = Json.num 0) ∧
      (s.get "duration_ms" = Json.undefined →
        (resultStats s).durationMs = Json.num 0) ∧
      (s.get "tool_calls" = Json.undefined →
        (resultStats s).toolCalls = Json.num 0)) := by
  constructor
  · cases j with
    | obj fs =>
      show parseCLIDispatch (Json.obj fs) = _
      unfold parseCLIDispatch
      rw [hty]
      rfl
    | undefined => simp [Json.get] at hty
    | null => simp [Json.get] at hty
    | bool b => simp [Json.get] at hty
    | num n => simp [Json.get] at hty
    | str s => simp [Json.get] at hty
    | arr xs => simp [Json.get] at hty
  · intro s
    refine ⟨?_, ?_, ?_, ?_, ?_⟩
    · intro h
      simp [resultStats, jsOr, h, Json.truthy]
    · intro h h'
      simp [resultStats, jsOr, h, h', Json.truthy]
    · intro h h'
      simp [resultStats, jsOr, h, h', Json.truthy]
    · intro h
      simp [resultStats, jsOr, h, Json.truthy]
    · intro h
      simp [resultStats, jsOr, h, Json.truthy]

/-- C3 witness: the spec's test line `{"type":"result","stats":{}}` yields a
completion event with all five statistics fields equal to zero. -/
theorem parseCLIJson_result_stats_witness :
    parseCLIJson (Json.obj [("type", Json.str "result"), ("stats", Json.obj [])]) =
      some { type := CLIEventType.complete,
             stats := some { totalTokens := Json.num 0, inputTokens := Json.num 0,
                             outputTokens := Json.num 0, durationMs := Json.num 0,
                             toolCalls := Json.num 0 } } := by
  have h := parseCLIJson_result_stats_defaulted
    (Json.obj [("type", Json.str "result"), ("stats", Json.obj [])]) rfl
  exact h.1.trans rfl

/-- Lemma: `close` on an id with no registered session yields `false`, no kill, no
change. -/
theorem close_unknown_session (st : TermState) (sid : String)
    (h : lookupKey st.sessions sid = none) :
    TerminalManager.close st sid = { ok := false, state := st, killed := [] } := by
  unfold TerminalManager.close
  rw [h]

/-- C6: `close` is idempotent: on a registered session the first call
succeeds and kills the pty exactly once, removing the session from the id map
and the path map; the second call returns `false`, kills nothing, does not
throw (it is total) and leaves the state unchanged. -/
theorem close_idempotent (st : TermState) (sid : String) (s : TermSession)
    (hwf : st.pathMapConsistent = true)
    (hs : lookupKey st.sessions sid = some s) :
    (TerminalManager.close st sid).ok = true ∧
    (TerminalManager.close st sid).killed = [s.pid] ∧
    (TerminalManager.close (TerminalManager.close st sid).state sid).ok = false ∧
    (TerminalManager.close (TerminalManager.close st sid).state sid).killed = [] ∧
    (TerminalManager.close (TerminalManager.close st sid).state sid).state =
      (TerminalManager.close st sid).state ∧
    lookupKey (TerminalManager.close st sid).state.sessions sid = none ∧
    (∀ p, lookupKey (TerminalManager.close st sid).state.projectToSession p ≠ some sid) := by
  have hclose : TerminalManager.close st sid =
      { ok := true,
        state := { st with
          sessions := eraseKey st.sessions sid,
          projectToSession := eraseKey st.projectToSession s.projectPath },
        killed := [s.pid] } := by
    unfold TerminalManager.close
    rw [hs]
  have hn2 : lookupKey (TerminalManager.close st sid).state.sessions sid = none := by
    rw [hclose]
    exact lookupKey_eraseKey_self _ _
  have hclose2 := close_unknown_session _ sid hn2
  refine ⟨by rw [hclose], by rw [hclose], by rw [hclose2], by rw [hclose2],
          by rw [hclose2], hn2, ?_⟩
  intro p hcontra
  have hcontra' : lookupKey (eraseKey st.projectToSession s.projectPath) p = some sid := by
    rw [hclose] at hcontra
    exact hcontra
  have hmem := mem_eraseKey (mem_of_lookupKey hcontra')
  have hall := hwf
  rw [TermState.pathMapConsistent, List.all_eq_true] at hall
  have := hall (p, sid) hmem.1
  rw [hs] at this
  have heq : s.projectPath = p := by simpa using this
  exact hmem.2 heq.symm

/-- C6 witness: a one-session registry, closed twice. -/
theorem close_idempotent_witness :
    (TerminalManager.close
      { sessions := [("t1", { id := "t1", projectPath := "/p", projectName := "p", pid := 42 })],
        projectToSession := [("/p", "t1")] } "t1").ok = true ∧
    (TerminalManager.close
      { sessions := [("t1", { id := "t1", projectPath := "/p", projectName := "p", pid := 42 })],
        projectToSession := [("/p", "t1")] } "t1").killed = [42] ∧
    (TerminalManager.close
      (TerminalManager.close
        { sessions := [("t1", { id := "t1", projectPath := "/p", projectName := "p", pid := 42 })],
          projectToSession := [("/p", "t1")] } "t1").state "t1").ok = false ∧
    (TerminalManager.close
      (TerminalManager.close
        { sessions := [("t1", { id := "t1", projectPath := "/p", projectName := "p", pid := 42 })],
          projectToSession := [("/p", "t1")] } "t1").state "t1").killed = [] := by
  have h := close_idempotent
    { sessions := [("t1", { id := "t1", projectPath := "/p", projectName := "p", pid := 42 })],
      projectToSession := [("/p", "t1")] } "t1"
    { id := "t1", projectPath := "/p", projectName := "p", pid := 42 } rfl rfl
  exact ⟨h.1, h.2.1, h.2.2.1, h.2.2.2.1⟩

/-- C7: after any output arrival on a session whose configured maximum is
positive, the buffer holds at most `maxBufferLines` lines; when the appended
lines would exceed the maximum, exactly the `maxBufferLines` most recent
lines are kept, as a suffix (oldest-first order preserved) of the appended
sequence; sessions are created with `maxBufferLines = 5000`. -/
theorem terminal_buffer_eviction (s : TermSession) (data : String)
    (hm : 0 < s.maxBufferLines) :
    (TerminalManager.terminalOnData s data).1.buffer.length ≤ s.maxBufferLines ∧
    ((s.buffer ++ jsSplitNl data).length > s.maxBufferLines →
      (TerminalManager.terminalOnData s data).1.buffer =
        (s.buffer ++ jsSplitNl data).drop
          ((s.buffer ++ jsSplitNl data).length - s.maxBufferLines) ∧
      (TerminalManager.terminalOnData s data).1.buffer.length = s.maxBufferLines ∧
      (TerminalManager.terminalOnData s data).1.buffer <:+ (s.buffer ++ jsSplitNl data)) ∧
    (∀ id p n pid, (newTermSession id p n pid).maxBufferLines = 5000) := by
  have hmax0 : ¬ (s.maxBufferLines = 0) := by omega
  have hb : (TerminalManager.terminalOnData s data).1.buffer =
      if (s.buffer ++ jsSplitNl data).length > s.maxBufferLines then
        (s.buffer ++ jsSplitNl data).drop
          ((s.buffer ++ jsSplitNl data).length - s.maxBufferLines)
      else s.buffer ++ jsSplitNl data := by
    by_cases hc : (s.buffer ++ jsSplitNl data).length > s.maxBufferLines
    · simp [TerminalManager.terminalOnData, hc, hmax0]
    · have hc' : ¬ s.maxBufferLines < s.buffer.length + (jsSplitNl data).length := by
        simpa [List.length_append] using hc
      simp [TerminalManager.terminalOnData, hc']
  refine ⟨?_, ?_, fun id p n pid => rfl⟩
  · rw [hb]
    by_cases hc : (s.buffer ++ jsSplitNl data).length > s.maxBufferLines
    · rw [if_pos hc, List.length_drop]
      omega
    · rw [if_neg hc]
      omega
  · intro hc
    refine ⟨?_, ?_, ?_⟩
    · rw [hb, if_pos hc]
    · rw [hb, if_pos hc, List.length_drop]
      omega
    · rw [hb, if_pos hc]
      exact List.drop_suffix _ _

/-- C7 witness: a two-line maximum with three lines appended keeps the last
two in order. -/
theorem terminal_buffer_eviction_witness :
    (0 : Nat) < 2 ∧
    (TerminalManager.terminalOnData
      { id := "t", projectPath := "/p", projectName := "p",
        pid := 1, buffer := ["a"], maxBufferLines := 2 } "b\nc").1.buffer
      = ["b", "c"] := by
  have h := terminal_buffer_eviction
    { id := "t", projectPath := "/p", projectName := "p",
      pid := 1, buffer := ["a"], maxBufferLines := 2 } "b\nc" (by decide)
  refine ⟨by decide, ?_⟩
  have h2 := (h.2.1 (by decide)).1
  exact h2.trans (by decide)

theorem dropWhile_head_false {α : Type} (p : α → Bool) :
    ∀ {l : List α} {c : α} {t : List α}, l.dropWhile p = c :: t → p c = false := by
  intro l
  induction l with
  | nil => intro c t h; simp [List.dropWhile] at h
  | cons a as ih =>
    intro c t h
    rw [List.dropWhile_cons] at h
    by_cases ha : p a = true
    · rw [if_pos ha] at h
      exact ih h
    · rw [if_neg ha] at h
      cases h
      simpa using ha

/-- A trimmed line never ends in JavaScript whitespace. -/
theorem jsTrim_last_not_ws (cs : List Char) {z : Char} {t : List Char}
    (h : (jsTrim cs).reverse = z :: t) : isJsWs z = false := by
  have hrw : (jsTrim cs).reverse = List.dropWhile isJsWs (jsTrimL cs).reverse := by
    unfold jsTrim jsTrimR
    rw [List.reverse_reverse]
  rw [hrw] at h
  exact dropWhile_head_false isJsWs h

/-- C4 counterexample: the line `"foo> "` ends with a prompt glyph followed
by trailing whitespace, so the claim classifies it prompt-detected, but
`isPromptLine` trims the stripped line before its `endsWith '> '` check, so
it returns `false`. -/
theorem isPromptLine_trailing_ws_cex :
    specPromptDetected "foo> " = true ∧ isPromptLine "foo> " = false := by
  constructor <;> decide

/-- C4 (amended): a line is prompt-detected if and only if, after stripping
escape sequences AND trimming surrounding whitespace, it is exactly one of
the prompt glyphs `>` or `❯`.  The source's `endsWith('> ')` test is dead
(the line is already trimmed) and its `/^[>❯]\s*$/` test adds nothing beyond
glyph equality on a trimmed line, so a line ending in a glyph plus trailing
whitespace after non-whitespace text (such as `"foo> "`) is NOT
prompt-detected. -/
theorem isPromptLine_iff_trimmed_glyph (line : String) :
    isPromptLine line = true ↔
      (jsTrim (stripAnsiL line.toList) = ['>'] ∨
       jsTrim (stripAnsiL line.toList) = ['❯']) := by
  constructor
  · intro h
    simp only [isPromptLine, Bool.or_eq_true, beq_iff_eq] at h
    rcases h with ((h1 | h1) | h1) | h1
    · exact Or.inl h1
    · exact Or.inr h1
    · exfalso
      rw [List.isSuffixOf_iff_suffix] at h1
      obtain ⟨pre, hpre⟩ := h1
      have hrev : (jsTrim (stripAnsiL line.toList)).reverse =
          ' ' :: ('>' :: pre.reverse) := by
        rw [← hpre]
        simp
      have := jsTrim_last_not_ws _ hrev
      simp [isJsWs] at this
    · rcases hcl : jsTrim (stripAnsiL line.toList) with _ | ⟨g, rest⟩
      · rw [hcl] at h1
        simp [promptGlyphWsTest] at h1
      · rw [hcl] at h1
        simp only [promptGlyphWsTest, Bool.and_eq_true, Bool.or_eq_true,
          decide_eq_true_eq] at h1
        obtain ⟨hg, hws⟩ := h1
        rcases hr : rest with _ | ⟨r, rs⟩
        · rw [hr] at hcl
          rcases hg with rfl | rfl
          · exact Or.inl rfl
          · exact Or.inr rfl
        · exfalso
          rcases hrv : rest.reverse with _ | ⟨z, zt⟩
          · rw [hr] at hrv
            simp at hrv
          · have hz : z ∈ rest := by
              have hzr : z ∈ rest.reverse := by
                rw [hrv]
                exact List.mem_cons_self _ _
              exact List.mem_reverse.mp hzr
            have hzws : isJsWs z = true := by
              rw [List.all_eq_true] at hws
              exact hws z hz
            have hcr : (jsTrim (stripAnsiL line.toList)).reverse =
                z :: (zt ++ [g]) := by
              rw [hcl]
              simp [hrv]
            have := jsTrim_last_not_ws _ hcr
            rw [hzws] at this
            cases this
  · intro h
    simp only [isPromptLine]
    rcases h with h | h <;> rw [h] <;> decide

end AgentHub
